import Mathlib

/-!
Shallow embedding of the core of the `fkpg-jmp-fix` repository (a 2D
action-platformer): the player character model (`src/models/entities/player.py`)
and the scene manager (`src/controllers/scene_manager.py`), together with
theorems settling the specification claims about them.

Python floats are modelled as rationals, Python ints as `Int`/`Nat`, pygame
surfaces and sprite-group membership are abstracted (a `killed` flag models
`kill()`), and `random.choice` over the two light-attack variants is modelled
by an explicit boolean argument.
-/

namespace FallenKnight

/-- Player animation states (`player.py`, `class PlayerState`). -/
inductive PlayerState
  | IDLE
  | WALK
  | RUN
  | ATTACK_LIGHT_1
  | ATTACK_LIGHT_2
  | ATTACK_HEAVY
  | BLOCK
  | HURT
  | DEATH
  deriving DecidableEq

/-- Player input actions (`player.py`, `class PlayerAction`). -/
inductive PlayerAction
  | MOVE_LEFT
  | MOVE_RIGHT
  | JUMP
  | SPRINT
  | BLOCK
  | ATTACK_LIGHT
  | ATTACK_HEAVY
  deriving DecidableEq

/-- Modelled from the spec: `src/core/constants.py` is not under `src/`; the
spec describes the constants as configurable (e.g. a 400ms double-click
threshold, a fixed block damage reduction factor, unit-converted speeds), so
the model carries them as parameters. -/
structure Consts where
  gravity : ℚ
  jumpSpeed : ℚ
  maxFallSpeed : ℚ
  baseMovementSpeed : ℚ
  sprintMultiplier : ℚ
  doubleClickThresholdMs : ℤ
  blockDamageReduction : ℚ
  invulnerabilityDuration : ℚ
  maxHealth : ℤ

/-- Modelled from the spec: `src/models/animation.py` is not under `src/`.
Spec section 4.1: an animation is an ordered frame sequence with
`frameDuration = 1/fps`, a loop flag and an elapsed-time accumulator; frame
content (surfaces) is external, so only the frame count is kept. -/
structure Animation where
  frameCount : ℕ
  frameDuration : ℚ
  loop : Bool
  elapsed : ℚ
  index : ℕ
  deriving DecidableEq

/-- Modelled from the spec (4.1): advancing accumulates elapsed time and, when
it reaches the frame duration, steps the index by `floor(elapsed/frameDuration)`
(consuming the remainder), wrapping when looping and clamping at the last frame
otherwise. -/
def Animation.advance (a : Animation) (dt : ℚ) : Animation :=
  let e := a.elapsed + dt
  if 0 < a.frameDuration ∧ a.frameDuration ≤ e then
    let steps := (⌊e / a.frameDuration⌋).toNat
    let idx :=
      if a.loop then (a.index + steps) % a.frameCount
      else min (a.index + steps) (a.frameCount - 1)
    { a with elapsed := e - steps * a.frameDuration, index := idx }
  else
    { a with elapsed := e }

/-- Modelled from the spec (4.1): `isFinished()` is true only for a non-looping
animation whose index has reached the last frame. -/
def Animation.isFinished (a : Animation) : Bool :=
  !a.loop && (a.index == a.frameCount - 1)

/-- Modelled from the spec (4.1): switching state resets playback to frame 0. -/
def Animation.reset (a : Animation) : Animation :=
  { a with elapsed := 0, index := 0 }

/-- Modelled from the spec (section 3): a mapping from player state to its
animation plus the active-state pointer. -/
structure AnimationSet where
  anims : PlayerState → Animation
  activeState : PlayerState

/-- Modelled from the spec (4.1): `setState` is a no-op when the state is
already active; otherwise it switches and resets the newly active animation. -/
def AnimationSet.setState (s : AnimationSet) (st : PlayerState) : AnimationSet :=
  if st = s.activeState then s
  else { anims := Function.update s.anims st ((s.anims st).reset), activeState := st }

/-- Modelled from the spec (4.1): per-frame advance of the active animation. -/
def AnimationSet.update (s : AnimationSet) (dt : ℚ) : AnimationSet :=
  { s with anims := Function.update s.anims s.activeState ((s.anims s.activeState).advance dt) }

/-- Modelled from the spec (4.1): finished-ness of the active animation. -/
def AnimationSet.isFinished (s : AnimationSet) : Bool :=
  (s.anims s.activeState).isFinished

/-- The player model. Character base fields (position, velocity, acceleration,
health, ground/invulnerability flags) follow spec section 3 since
`src/models/entities/character.py` is not under `src/`; the remaining fields
are `Player.__init__` (`player.py` lines 48-78). The `killed` flag models
pygame's `kill()` (removal from sprite groups). -/
structure Player where
  posX : ℚ
  posY : ℚ
  velX : ℚ
  velY : ℚ
  accX : ℚ
  accY : ℚ
  maxVelX : ℚ
  maxVelY : ℚ
  health : ℤ
  onGround : Bool
  facingLeft : Bool
  invulnerable : Bool
  invulnerableTimer : ℚ
  killed : Bool
  mana : ℤ
  maxMana : ℤ
  coins : ℤ
  moveDirection : ℤ
  isSprinting : Bool
  jumpRequested : Bool
  isBlocking : Bool
  lastRightClickTime : ℤ
  currentState : PlayerState
  animations : AnimationSet

/-- Modelled from the spec (section 3): `isAlive` is derived as `health > 0`. -/
def Player.isAlive (p : Player) : Bool :=
  decide (0 < p.health)

/-- `Player._enter_state` (`player.py` lines 245-251). -/
def Player.enterState (p : Player) (s : PlayerState) : Player :=
  if p.currentState = s then p
  else { p with currentState := s, animations := p.animations.setState s }

/-- `Player._can_attack` (`player.py` lines 241-243). -/
def Player.canAttack (p : Player) : Bool :=
  match p.currentState with
  | PlayerState.IDLE => true
  | PlayerState.WALK => true
  | PlayerState.RUN => true
  | _ => false

/-- `Player.handle_action` (`player.py` lines 112-134). -/
def Player.handleAction (p : Player) (action : PlayerAction) (pressed : Bool) : Player :=
  match action with
  | PlayerAction.MOVE_LEFT =>
      { p with moveDirection :=
          if pressed then -1 else (if p.moveDirection ≠ -1 then p.moveDirection else 0) }
  | PlayerAction.MOVE_RIGHT =>
      { p with moveDirection :=
          if pressed then 1 else (if p.moveDirection ≠ 1 then p.moveDirection else 0) }
  | PlayerAction.JUMP =>
      if pressed && !p.isBlocking && p.onGround then { p with jumpRequested := true } else p
  | PlayerAction.SPRINT =>
      { p with isSprinting := pressed }
  | PlayerAction.BLOCK =>
      let q := { p with isBlocking := pressed }
      if pressed then ({ q with jumpRequested := false }).enterState PlayerState.BLOCK
      else if q.currentState = PlayerState.BLOCK then q.enterState PlayerState.IDLE
      else q
  | PlayerAction.ATTACK_LIGHT =>
      { p with isBlocking := pressed }
  | PlayerAction.ATTACK_HEAVY =>
      { p with isBlocking := pressed }

/-- `Player.handle_mouse_click` (`player.py` lines 136-149). `random.choice`
between the two light-attack variants is modelled by the `coin` argument. -/
def Player.handleMouseClick (p : Player) (c : Consts) (button : ℤ) (currentTime : ℤ)
    (coin : Bool) : Player :=
  if !p.canAttack then p
  else if button = 1 then
    p.enterState (if coin then PlayerState.ATTACK_LIGHT_1 else PlayerState.ATTACK_LIGHT_2)
  else if button = 3 then
    if currentTime - p.lastRightClickTime ≤ c.doubleClickThresholdMs then
      { p.enterState PlayerState.ATTACK_HEAVY with lastRightClickTime := 0 }
    else
      { p with lastRightClickTime := currentTime }
  else p

/-- Python `int()` applied to a rational value truncates toward zero. -/
def pyTrunc (q : ℚ) : ℤ :=
  if q < 0 then -⌊-q⌋ else ⌊q⌋

/-- Modelled from the spec (4.2): `Character.take_damage`
(`src/models/entities/character.py` is not under `src/`): a no-op returning
false while invulnerable (or already dead); otherwise health decreases floored
at 0; a lethal hit triggers the overridable on-death hook (the player's
`_on_death`, `player.py` lines 186-188, enters DEATH); a non-lethal hit grants
timed invulnerability. Returns whether damage was applied. -/
def Player.characterTakeDamage (p : Player) (c : Consts) (amount : ℤ) : Bool × Player :=
  if p.invulnerable || !p.isAlive then (false, p)
  else
    let newHealth := max 0 (p.health - amount)
    let q := { p with health := newHealth }
    if newHealth = 0 then (true, q.enterState PlayerState.DEATH)
    else (true, { q with invulnerable := true,
                         invulnerableTimer := c.invulnerabilityDuration })

/-- `Player.take_damage` (`player.py` lines 175-184): blocking reduces the
amount to `max(1, int(amount * BLOCK_DAMAGE_REDUCTION))` before forwarding to
the base routine; on applied non-lethal damage the player enters HURT. -/
def Player.takeDamage (p : Player) (c : Consts) (amount : ℤ) : Bool × Player :=
  let amt := if p.isBlocking then max 1 (pyTrunc ((amount : ℚ) * c.blockDamageReduction))
             else amount
  match p.characterTakeDamage c amt with
  | (true, q) => (true, if q.isAlive then q.enterState PlayerState.HURT else q)
  | (false, q) => (false, q)

/-- The non-interruptible attack/hurt states of
`Player._update_state_machine` (`player.py` lines 256-257). -/
def attackOrHurt : List PlayerState :=
  [PlayerState.ATTACK_LIGHT_1, PlayerState.ATTACK_LIGHT_2,
   PlayerState.ATTACK_HEAVY, PlayerState.HURT]

/-- The attack states gating `_can_attack`. -/
def attackStates : List PlayerState :=
  [PlayerState.ATTACK_LIGHT_1, PlayerState.ATTACK_LIGHT_2, PlayerState.ATTACK_HEAVY]

/-- `Player._update_state_machine` (`player.py` lines 253-276). -/
def Player.updateStateMachine (p : Player) : Player :=
  if p.currentState ∈ attackOrHurt then
    (if p.animations.isFinished then p.enterState PlayerState.IDLE else p)
  else if p.currentState = PlayerState.DEATH then
    (if p.animations.isFinished then { p with killed := true } else p)
  else if p.currentState = PlayerState.BLOCK then p
  else
    p.enterState
      (if p.moveDirection ≠ 0 then
        (if p.isSprinting then PlayerState.RUN else PlayerState.WALK)
      else PlayerState.IDLE)

/-- The jump-handling block of `Player._update_character` (`player.py` lines
207-211): consume the one-shot jump request when grounded and not blocking. -/
def Player.jumpStep (p : Player) (c : Consts) : Player :=
  if p.jumpRequested && p.onGround && !p.isBlocking then
    { p with velY := c.jumpSpeed * 60, onGround := false, jumpRequested := false }
  else p

/-- The gravity block of `Player._update_character` (`player.py` lines
213-218): gravity while airborne; zero vertical acceleration and velocity on
the ground. -/
def Player.gravityStep (p : Player) (c : Consts) : Player :=
  if !p.onGround then { p with accY := c.gravity * 60 * 60 }
  else { p with accY := 0, velY := 0 }

/-- The horizontal-movement block of `Player._update_character` (`player.py`
lines 220-225): velocity set directly from the move direction; horizontal
acceleration reset. -/
def Player.horizontalStep (p : Player) (c : Consts) : Player :=
  let speed := c.baseMovementSpeed * (if p.isSprinting then c.sprintMultiplier else 1)
  { p with velX := (p.moveDirection : ℚ) * speed * 60, accX := 0 }

/-- The facing block of `Player._update_character` (`player.py` lines
227-231): facing flips only on nonzero move direction. -/
def Player.facingStep (p : Player) : Player :=
  if p.moveDirection < 0 then { p with facingLeft := true }
  else if 0 < p.moveDirection then { p with facingLeft := false }
  else p

/-- `Player._update_character` (`player.py` lines 205-238): jump consumption,
gravity, direct horizontal velocity, facing, state machine, animation advance.
The rendered image fetch (line 238) is external and not modelled. -/
def Player.updateCharacter (p : Player) (c : Consts) (dt : ℚ) : Player :=
  let p4 := (((p.jumpStep c).gravityStep c).horizontalStep c).facingStep
  let p5 := p4.updateStateMachine
  { p5 with animations := p5.animations.update dt }

/-- The invulnerability-countdown block of `Player.update` (`player.py` lines
192-197). -/
def Player.invulnerabilityStep (p : Player) (dt : ℚ) : Player :=
  if p.invulnerable ∧ 0 < p.invulnerableTimer then
    (let t := p.invulnerableTimer - dt
     if t ≤ 0 then { p with invulnerable := false, invulnerableTimer := 0 }
     else { p with invulnerableTimer := t })
  else p

/-- `Player.update` (`player.py` lines 190-203): invulnerability countdown, no
physics integration (`update_physics` is deliberately not called, lines
199-200), then the character-specific update. -/
def Player.update (p : Player) (c : Consts) (dt : ℚ) : Player :=
  (p.invulnerabilityStep dt).updateCharacter c dt

/-- `Player.__init__` (`player.py` lines 48-78). The animation set is supplied
(asset loading is external); `__init__` sets its state to IDLE. Character base
initial values (zero velocity/acceleration, flags off) follow spec section 3
since `character.py` is not under `src/`. -/
def initPlayer (c : Consts) (x y : ℚ) (health : ℤ) (anims : AnimationSet) : Player :=
  { posX := x, posY := y
    velX := 0, velY := 0
    accX := 0, accY := 0
    maxVelX := c.baseMovementSpeed * c.sprintMultiplier * 60
    maxVelY := c.maxFallSpeed * 60
    health := health
    onGround := false
    facingLeft := false
    invulnerable := false
    invulnerableTimer := 0
    killed := false
    mana := 100, maxMana := 100
    coins := 0
    moveDirection := 0
    isSprinting := false
    jumpRequested := false
    isBlocking := false
    lastRightClickTime := 0
    currentState := PlayerState.IDLE
    animations := anims.setState PlayerState.IDLE }

/-- Concrete constants for witnesses: the spec's example 400ms double-click
threshold and a one-half block damage reduction. -/
def c0 : Consts :=
  { gravity := 1, jumpSpeed := 9, maxFallSpeed := 18
    baseMovementSpeed := 3, sprintMultiplier := 2
    doubleClickThresholdMs := 400
    blockDamageReduction := 1 / 2
    invulnerabilityDuration := 1
    maxHealth := 100 }

/-- A concrete non-looping four-frame animation for witnesses. -/
def anim0 : Animation :=
  { frameCount := 4, frameDuration := 1 / 10, loop := false, elapsed := 0, index := 0 }

/-- A concrete animation set binding every state to `anim0`. -/
def animSet0 : AnimationSet :=
  { anims := fun _ => anim0, activeState := PlayerState.IDLE }

/-- A freshly constructed player used by witnesses and counterexamples. -/
def pIdle : Player :=
  initPlayer c0 0 0 100 animSet0

/-- A player mid heavy attack. -/
def pAttack : Player :=
  pIdle.enterState PlayerState.ATTACK_HEAVY

/-- A player in the HURT state (animation not finished). -/
def pHurt : Player :=
  pIdle.enterState PlayerState.HURT

/-- A player holding block (obtained through `handle_action(BLOCK, True)`). -/
def pBlock : Player :=
  pIdle.handleAction PlayerAction.BLOCK true

/-- A grounded player (ready to accept a jump press). -/
def pReady : Player :=
  { pIdle with onGround := true }

/-- Saved game data `(x, y, health)` (`scene_manager.py` line 144). -/
structure SavedData where
  x : ℚ
  y : ℚ
  health : ℤ
  deriving DecidableEq

/-- Scenes, identified by the constructor arguments the scene manager passes
(`scene_manager.py` lines 86-111); scene behaviour itself is external. -/
inductive Scene
  | menu
  | settings
  | game (levelId : String) (savedData : Option SavedData)
  | dialog (dialogId : String) (nextScene : String)
  deriving DecidableEq

/-- Scene manager state (`SceneManager.__init__`, `scene_manager.py` lines
20-36): the scene cache plus the held level id and saved data. -/
structure SMState where
  cache : List (String × Scene)
  currentLevel : String
  savedData : Option SavedData
  deriving DecidableEq

/-- Initial scene manager state (`scene_manager.py` lines 34-36). -/
def smInit : SMState :=
  { cache := [], currentLevel := "tutorial", savedData := none }

/-- Helper for `pySplit`: walk the characters, accumulating the current token
(reversed) and emitting it at each whitespace run or at the end. -/
def pySplitAux : List Char → List Char → List String
  | [], acc => if acc.isEmpty then [] else [String.mk acc.reverse]
  | ch :: rest, acc =>
    if ch.isWhitespace then
      (if acc.isEmpty then pySplitAux rest []
       else String.mk acc.reverse :: pySplitAux rest [])
    else pySplitAux rest (ch :: acc)

/-- Python `str.split()` with no argument: split on whitespace runs, dropping
empty tokens. -/
def pySplit (s : String) : List String :=
  pySplitAux s.toList []

/-- Decimal digits to a natural number. -/
def digitsToNat (l : List Char) : ℕ :=
  l.foldl (fun n ch => 10 * n + (ch.toNat - 48)) 0

/-- A non-empty all-digit character list. -/
def isDigits (l : List Char) : Bool :=
  !l.isEmpty && l.all Char.isDigit

/-- Modelled from the spec: Python's built-in `int()` on a token — an optional
sign followed by digits; any other token raises `ValueError` (here: `none`). -/
def parseIntTok (s : String) : Option ℤ :=
  match s.toList with
  | '-' :: rest => if isDigits rest then some (-(digitsToNat rest : ℤ)) else none
  | '+' :: rest => if isDigits rest then some ((digitsToNat rest : ℕ) : ℤ) else none
  | cs => if isDigits cs then some ((digitsToNat cs : ℕ) : ℤ) else none

/-- Modelled from the spec: Python's built-in `float()` on a plain decimal
token — an optional sign, digits with at most one decimal point and at least
one digit; any other token raises `ValueError` (here: `none`). -/
def parseFloatTok (s : String) : Option ℚ :=
  let cs := s.toList
  let signBody : ℚ × List Char :=
    match cs with
    | '-' :: rest => (-1, rest)
    | '+' :: rest => (1, rest)
    | _ => (1, cs)
  let sign := signBody.1
  let body := signBody.2
  if body.contains '.' then
    let intPart := body.takeWhile (fun ch => ch != '.')
    let fracPart := (body.dropWhile (fun ch => ch != '.')).drop 1
    if fracPart.contains '.' then none
    else if intPart.isEmpty && fracPart.isEmpty then none
    else if intPart.all Char.isDigit && fracPart.all Char.isDigit then
      some (sign * ((digitsToNat intPart : ℚ) +
        (digitsToNat fracPart : ℚ) / (10 : ℚ) ^ fracPart.length))
    else none
  else if isDigits body then some (sign * (digitsToNat body : ℚ)) else none

/-- The Python exception kinds the save-loading `except` clause names
(`scene_manager.py` line 149). -/
inductive PyExn
  | ioError
  | valueError
  deriving DecidableEq

/-- The `try` body of `SceneManager._load_saved_game` (`scene_manager.py`
lines 136-148) with explicit exception results: the save file content is
`none` when the file does not exist; a token failing `float()`/`int()` raises
`ValueError`; fewer than three tokens silently does nothing. -/
def SMState.loadSavedGameBody (st : SMState) (file : Option String) : Except PyExn SMState :=
  match file with
  | none => Except.ok st
  | some content =>
    match pySplit content with
    | tx :: ty :: th :: rest =>
      match parseFloatTok tx, parseFloatTok ty, parseIntTok th with
      | some x, some y, some h =>
        let st1 := { st with savedData := some ⟨x, y, h⟩ }
        match rest with
        | lvl :: _ => Except.ok { st1 with currentLevel := lvl }
        | [] => Except.ok st1
      | _, _, _ => Except.error PyExn.valueError
    | _ => Except.ok st

/-- `SceneManager._load_saved_game` (`scene_manager.py` lines 133-150): the
`except (IOError, ValueError)` clause resets the held saved data to `None`. -/
def SMState.loadSavedGame (st : SMState) (file : Option String) : SMState :=
  match st.loadSavedGameBody file with
  | Except.ok st1 => st1
  | Except.error _ => { st with savedData := none }

/-- Whether the save file yields at least three tokens whose first three parse
as float, float, int (the condition under which `_load_saved_game` stores a
tuple). -/
def fileParses (file : Option String) : Bool :=
  match file with
  | none => false
  | some content =>
    match pySplit content with
    | tx :: ty :: th :: _ =>
      (parseFloatTok tx).isSome && (parseFloatTok ty).isSome && (parseIntTok th).isSome
    | _ => false

/-- `SceneManager._create_scene` (`scene_manager.py` lines 86-111): `none`
models the registry miss (`scene_classes.get` returning `None`); the optional
arguments model the keyword arguments with their `kwargs.get` defaults. Scene
construction itself is external and modelled as succeeding. -/
def SMState.createScene (st : SMState) (sid : String) (levelArg : Option String)
    (savedArg : Option SavedData) (dialogArg : Option String) (nextArg : Option String) :
    Option Scene :=
  if sid = "game" then
    some (Scene.game (levelArg.getD st.currentLevel) savedArg)
  else if sid = "dialog" then
    some (Scene.dialog (dialogArg.getD "test") (nextArg.getD "menu"))
  else if sid = "menu" then some Scene.menu
  else if sid = "settings" then some Scene.settings
  else none

/-- `SceneManager._get_scene` (`scene_manager.py` lines 59-84): the special ids
`new_game`, `continue`, `game`, the menu/settings cache, and the generic path.
`file` is the external save file content, threaded to `_load_saved_game`. -/
def SMState.getScene (st : SMState) (file : Option String) (sid : String) :
    Option (Scene × SMState) :=
  if sid = "new_game" then
    let st1 := { st with savedData := none, currentLevel := "tutorial" }
    (st1.createScene "dialog" none none (some "introduction") (some "game")).map
      (fun sc => (sc, st1))
  else if sid = "continue" then
    let st1 := st.loadSavedGame file
    (st1.createScene "game" (some st1.currentLevel) st1.savedData none none).map
      (fun sc => (sc, st1))
  else if sid = "game" then
    (st.createScene "game" (some st.currentLevel) st.savedData none none).map
      (fun sc => (sc, st))
  else if sid = "menu" ∨ sid = "settings" then
    match st.cache.lookup sid with
    | some sc => some (sc, st)
    | none =>
      match st.createScene sid none none none none with
      | some sc => some (sc, { st with cache := (sid, sc) :: st.cache })
      | none => none
  else
    (st.createScene sid none none none none).map (fun sc => (sc, st))

/-- `SceneManager._handle_transition` (`scene_manager.py` lines 113-131):
`None`/empty ends the loop; otherwise the static transition table, unknown
tokens passing through unchanged. -/
def handleTransition (toScene : Option String) : Option String :=
  match toScene with
  | none => none
  | some t =>
    if t = "" then none
    else if t = "exit" then none
    else if t = "menu" then some "menu"
    else if t = "settings" then some "settings"
    else if t = "back" then some "menu"
    else if t = "new_game" then some "new_game"
    else if t = "continue" then some "continue"
    else if t = "game" then some "game"
    else if t = "game_over" then some "menu"
    else if t = "level_complete" then some "menu"
    else some t

/-- `SceneManager.run` (`scene_manager.py` lines 38-57), fuel-bounded: while
the current id is non-empty and not `exit`, resolve the scene (raising
`SceneError` — the `Except.error` — when `_get_scene` yields none), run it
(`sceneRun` models the external `scene.run()` result) and translate the
transition. The final `_cleanup` is external. -/
def SMState.runLoop (file : Option String) (sceneRun : Scene → Option String) :
    ℕ → SMState → Option String → Except String SMState
  | 0, st, _ => Except.ok st
  | fuel + 1, st, cur =>
    match cur with
    | none => Except.ok st
    | some sid =>
      if sid = "" ∨ sid = "exit" then Except.ok st
      else
        match st.getScene file sid with
        | none => Except.error ("Unknown scene: " ++ sid)
        | some (sc, st1) =>
          st1.runLoop file sceneRun fuel (handleTransition (sceneRun sc))

/-- A scene manager state holding stale saved data, as left by a prior
`continue` that loaded the save file below. -/
def stStale : SMState :=
  { cache := [], currentLevel := "tutorial", savedData := some ⟨1, 2, 50⟩ }

/-- A save file persisting on disk: `new_game` never deletes it. -/
def file0 : Option String :=
  some "1.0 2.0 50"

/-- Observation: the saved data a game scene was constructed with. -/
def sceneSavedData : Scene → Option SavedData
  | Scene.game _ sd => sd
  | _ => none

/-- Observation: the level id a game scene was constructed with. -/
def sceneLevelId : Scene → Option String
  | Scene.game lvl _ => some lvl
  | _ => none

/-- The scene a `continue` request resolves to right after `new_game` (held
state `smInit`), with the pre-`new_game` save file still on disk. -/
def continueScene : Option Scene :=
  (smInit.getScene file0 "continue").map Prod.fst

/-! Helper lemmas about field preservation, shared by the claim theorems. -/

@[simp] lemma enterState_currentState (p : Player) (s : PlayerState) :
    (p.enterState s).currentState = s := by
  unfold Player.enterState; split
  · assumption
  · rfl

@[simp] lemma enterState_posX (p : Player) (s : PlayerState) :
    (p.enterState s).posX = p.posX := by
  unfold Player.enterState; split <;> rfl

@[simp] lemma enterState_posY (p : Player) (s : PlayerState) :
    (p.enterState s).posY = p.posY := by
  unfold Player.enterState; split <;> rfl

@[simp] lemma enterState_velY (p : Player) (s : PlayerState) :
    (p.enterState s).velY = p.velY := by
  unfold Player.enterState; split <;> rfl

@[simp] lemma enterState_onGround (p : Player) (s : PlayerState) :
    (p.enterState s).onGround = p.onGround := by
  unfold Player.enterState; split <;> rfl

@[simp] lemma enterState_jumpRequested (p : Player) (s : PlayerState) :
    (p.enterState s).jumpRequested = p.jumpRequested := by
  unfold Player.enterState; split <;> rfl

@[simp] lemma enterState_isBlocking (p : Player) (s : PlayerState) :
    (p.enterState s).isBlocking = p.isBlocking := by
  unfold Player.enterState; split <;> rfl

@[simp] lemma enterState_health (p : Player) (s : PlayerState) :
    (p.enterState s).health = p.health := by
  unfold Player.enterState; split <;> rfl

@[simp] lemma enterState_lastRightClickTime (p : Player) (s : PlayerState) :
    (p.enterState s).lastRightClickTime = p.lastRightClickTime := by
  unfold Player.enterState; split <;> rfl

@[simp] lemma updateStateMachine_posX (p : Player) :
    p.updateStateMachine.posX = p.posX := by
  unfold Player.updateStateMachine; split_ifs <;> simp

@[simp] lemma updateStateMachine_posY (p : Player) :
    p.updateStateMachine.posY = p.posY := by
  unfold Player.updateStateMachine; split_ifs <;> simp

@[simp] lemma updateStateMachine_velY (p : Player) :
    p.updateStateMachine.velY = p.velY := by
  unfold Player.updateStateMachine; split_ifs <;> simp

@[simp] lemma updateStateMachine_onGround (p : Player) :
    p.updateStateMachine.onGround = p.onGround := by
  unfold Player.updateStateMachine; split_ifs <;> simp

@[simp] lemma updateStateMachine_jumpRequested (p : Player) :
    p.updateStateMachine.jumpRequested = p.jumpRequested := by
  unfold Player.updateStateMachine; split_ifs <;> simp

/-- The state machine's resulting state depends only on the current state, the
animations, the movement direction and the sprint flag. -/
lemma updateStateMachine_currentState_congr (p q : Player)
    (hs : p.currentState = q.currentState) (ha : p.animations = q.animations)
    (hm : p.moveDirection = q.moveDirection) (hsp : p.isSprinting = q.isSprinting) :
    p.updateStateMachine.currentState = q.updateStateMachine.currentState := by
  unfold Player.updateStateMachine
  rw [hs, ha, hm, hsp]
  split_ifs <;> simp [hs]

@[simp] lemma jumpStep_posX (p : Player) (c : Consts) : (p.jumpStep c).posX = p.posX := by
  unfold Player.jumpStep; split <;> rfl

@[simp] lemma jumpStep_posY (p : Player) (c : Consts) : (p.jumpStep c).posY = p.posY := by
  unfold Player.jumpStep; split <;> rfl

@[simp] lemma jumpStep_currentState (p : Player) (c : Consts) :
    (p.jumpStep c).currentState = p.currentState := by
  unfold Player.jumpStep; split <;> rfl

@[simp] lemma jumpStep_animations (p : Player) (c : Consts) :
    (p.jumpStep c).animations = p.animations := by
  unfold Player.jumpStep; split <;> rfl

@[simp] lemma jumpStep_moveDirection (p : Player) (c : Consts) :
    (p.jumpStep c).moveDirection = p.moveDirection := by
  unfold Player.jumpStep; split <;> rfl

@[simp] lemma jumpStep_isSprinting (p : Player) (c : Consts) :
    (p.jumpStep c).isSprinting = p.isSprinting := by
  unfold Player.jumpStep; split <;> rfl

@[simp] lemma gravityStep_posX (p : Player) (c : Consts) : (p.gravityStep c).posX = p.posX := by
  unfold Player.gravityStep; split <;> rfl

@[simp] lemma gravityStep_posY (p : Player) (c : Consts) : (p.gravityStep c).posY = p.posY := by
  unfold Player.gravityStep; split <;> rfl

@[simp] lemma gravityStep_onGround (p : Player) (c : Consts) :
    (p.gravityStep c).onGround = p.onGround := by
  unfold Player.gravityStep; split <;> rfl

@[simp] lemma gravityStep_jumpRequested (p : Player) (c : Consts) :
    (p.gravityStep c).jumpRequested = p.jumpRequested := by
  unfold Player.gravityStep; split <;> rfl

@[simp] lemma gravityStep_currentState (p : Player) (c : Consts) :
    (p.gravityStep c).currentState = p.currentState := by
  unfold Player.gravityStep; split <;> rfl

@[simp] lemma gravityStep_animations (p : Player) (c : Consts) :
    (p.gravityStep c).animations = p.animations := by
  unfold Player.gravityStep; split <;> rfl

@[simp] lemma gravityStep_moveDirection (p : Player) (c : Consts) :
    (p.gravityStep c).moveDirection = p.moveDirection := by
  unfold Player.gravityStep; split <;> rfl

@[simp] lemma gravityStep_isSprinting (p : Player) (c : Consts) :
    (p.gravityStep c).isSprinting = p.isSprinting := by
  unfold Player.gravityStep; split <;> rfl

/-- While airborne, the gravity block leaves vertical velocity untouched. -/
lemma gravityStep_velY_airborne (p : Player) (c : Consts) (h : p.onGround = false) :
    (p.gravityStep c).velY = p.velY := by
  unfold Player.gravityStep; rw [h]; rfl

@[simp] lemma horizontalStep_posX (p : Player) (c : Consts) :
    (p.horizontalStep c).posX = p.posX := rfl

@[simp] lemma horizontalStep_posY (p : Player) (c : Consts) :
    (p.horizontalStep c).posY = p.posY := rfl

@[simp] lemma horizontalStep_velY (p : Player) (c : Consts) :
    (p.horizontalStep c).velY = p.velY := rfl

@[simp] lemma horizontalStep_onGround (p : Player) (c : Consts) :
    (p.horizontalStep c).onGround = p.onGround := rfl

@[simp] lemma horizontalStep_jumpRequested (p : Player) (c : Consts) :
    (p.horizontalStep c).jumpRequested = p.jumpRequested := rfl

@[simp] lemma horizontalStep_currentState (p : Player) (c : Consts) :
    (p.horizontalStep c).currentState = p.currentState := rfl

@[simp] lemma horizontalStep_animations (p : Player) (c : Consts) :
    (p.horizontalStep c).animations = p.animations := rfl

@[simp] lemma horizontalStep_moveDirection (p : Player) (c : Consts) :
    (p.horizontalStep c).moveDirection = p.moveDirection := rfl

@[simp] lemma horizontalStep_isSprinting (p : Player) (c : Consts) :
    (p.horizontalStep c).isSprinting = p.isSprinting := rfl

@[simp] lemma facingStep_posX (p : Player) : p.facingStep.posX = p.posX := by
  unfold Player.facingStep; split_ifs <;> rfl

@[simp] lemma facingStep_posY (p : Player) : p.facingStep.posY = p.posY := by
  unfold Player.facingStep; split_ifs <;> rfl

@[simp] lemma facingStep_velY (p : Player) : p.facingStep.velY = p.velY := by
  unfold Player.facingStep; split_ifs <;> rfl

@[simp] lemma facingStep_onGround (p : Player) : p.facingStep.onGround = p.onGround := by
  unfold Player.facingStep; split_ifs <;> rfl

@[simp] lemma facingStep_jumpRequested (p : Player) :
    p.facingStep.jumpRequested = p.jumpRequested := by
  unfold Player.facingStep; split_ifs <;> rfl

@[simp] lemma facingStep_currentState (p : Player) :
    p.facingStep.currentState = p.currentState := by
  unfold Player.facingStep; split_ifs <;> rfl

@[simp] lemma facingStep_animations (p : Player) :
    p.facingStep.animations = p.animations := by
  unfold Player.facingStep; split_ifs <;> rfl

@[simp] lemma facingStep_moveDirection (p : Player) :
    p.facingStep.moveDirection = p.moveDirection := by
  unfold Player.facingStep; split_ifs <;> rfl

@[simp] lemma facingStep_isSprinting (p : Player) :
    p.facingStep.isSprinting = p.isSprinting := by
  unfold Player.facingStep; split_ifs <;> rfl

@[simp] lemma invulnerabilityStep_posX (p : Player) (dt : ℚ) :
    (p.invulnerabilityStep dt).posX = p.posX := by
  simp only [Player.invulnerabilityStep]; split_ifs <;> rfl

@[simp] lemma invulnerabilityStep_posY (p : Player) (dt : ℚ) :
    (p.invulnerabilityStep dt).posY = p.posY := by
  simp only [Player.invulnerabilityStep]; split_ifs <;> rfl

@[simp] lemma invulnerabilityStep_velY (p : Player) (dt : ℚ) :
    (p.invulnerabilityStep dt).velY = p.velY := by
  simp only [Player.invulnerabilityStep]; split_ifs <;> rfl

@[simp] lemma invulnerabilityStep_onGround (p : Player) (dt : ℚ) :
    (p.invulnerabilityStep dt).onGround = p.onGround := by
  simp only [Player.invulnerabilityStep]; split_ifs <;> rfl

@[simp] lemma invulnerabilityStep_jumpRequested (p : Player) (dt : ℚ) :
    (p.invulnerabilityStep dt).jumpRequested = p.jumpRequested := by
  simp only [Player.invulnerabilityStep]; split_ifs <;> rfl

@[simp] lemma invulnerabilityStep_isBlocking (p : Player) (dt : ℚ) :
    (p.invulnerabilityStep dt).isBlocking = p.isBlocking := by
  simp only [Player.invulnerabilityStep]; split_ifs <;> rfl

@[simp] lemma invulnerabilityStep_currentState (p : Player) (dt : ℚ) :
    (p.invulnerabilityStep dt).currentState = p.currentState := by
  simp only [Player.invulnerabilityStep]; split_ifs <;> rfl

@[simp] lemma invulnerabilityStep_animations (p : Player) (dt : ℚ) :
    (p.invulnerabilityStep dt).animations = p.animations := by
  simp only [Player.invulnerabilityStep]; split_ifs <;> rfl

@[simp] lemma invulnerabilityStep_moveDirection (p : Player) (dt : ℚ) :
    (p.invulnerabilityStep dt).moveDirection = p.moveDirection := by
  simp only [Player.invulnerabilityStep]; split_ifs <;> rfl

@[simp] lemma invulnerabilityStep_isSprinting (p : Player) (dt : ℚ) :
    (p.invulnerabilityStep dt).isSprinting = p.isSprinting := by
  simp only [Player.invulnerabilityStep]; split_ifs <;> rfl

/-- The full per-frame update resolves the player's state exactly as the state
machine does on the pre-update fields. -/
lemma update_currentState (p : Player) (c : Consts) (dt : ℚ) :
    (p.update c dt).currentState = p.updateStateMachine.currentState := by
  show ((((((p.invulnerabilityStep dt).jumpStep c).gravityStep c).horizontalStep
      c).facingStep).updateStateMachine).currentState = _
  exact updateStateMachine_currentState_congr _ _ (by simp) (by simp) (by simp) (by simp)

/-- C4 — Player.update performs no position integration: for every
delta-time, the player's position is unchanged by `Player.update` (physics
integration was deliberately removed from it; `player.py` lines 199-200). -/
theorem update_preserves_position (p : Player) (c : Consts) (dt : ℚ) :
    (p.update c dt).posX = p.posX ∧ (p.update c dt).posY = p.posY := by
  constructor <;> simp [Player.update, Player.updateCharacter]

@[simp] lemma updateCharacter_velY (p : Player) (c : Consts) (dt : ℚ) :
    (p.updateCharacter c dt).velY = ((p.jumpStep c).gravityStep c).velY := by
  show (((((p.jumpStep c).gravityStep c).horizontalStep
      c).facingStep).updateStateMachine).velY = _
  simp

@[simp] lemma updateCharacter_onGround (p : Player) (c : Consts) (dt : ℚ) :
    (p.updateCharacter c dt).onGround = (p.jumpStep c).onGround := by
  show (((((p.jumpStep c).gravityStep c).horizontalStep
      c).facingStep).updateStateMachine).onGround = _
  simp

@[simp] lemma updateCharacter_jumpRequested (p : Player) (c : Consts) (dt : ℚ) :
    (p.updateCharacter c dt).jumpRequested = (p.jumpStep c).jumpRequested := by
  show (((((p.jumpStep c).gravityStep c).horizontalStep
      c).facingStep).updateStateMachine).jumpRequested = _
  simp

/-- C5 — priority-ordered state resolution: in an attack state or HURT with an
unfinished animation the per-frame update keeps the state (suppressing every
other transition); once the animation is finished it transitions to IDLE; and
in BLOCK the update stays in BLOCK regardless of movement input. -/
theorem noninterruptible_and_block_states (p : Player) (c : Consts) (dt : ℚ) :
    (p.currentState ∈ attackOrHurt →
      (p.animations.isFinished = false → (p.update c dt).currentState = p.currentState) ∧
      (p.animations.isFinished = true → (p.update c dt).currentState = PlayerState.IDLE)) ∧
    (p.currentState = PlayerState.BLOCK →
      (p.update c dt).currentState = PlayerState.BLOCK) := by
  constructor
  · intro hmem
    constructor <;> intro hfin <;>
      · rw [update_currentState]
        unfold Player.updateStateMachine
        simp [hmem, hfin]
  · intro hb
    rw [update_currentState]
    unfold Player.updateStateMachine
    simp [attackOrHurt, hb]

/-- C5 witness: a concrete HURT player with an unfinished animation keeps its
state across an update, and a concrete blocking player stays in BLOCK. -/
theorem noninterruptible_and_block_states_witness :
    pHurt.currentState ∈ attackOrHurt ∧ pHurt.animations.isFinished = false ∧
    (pHurt.update c0 1).currentState = pHurt.currentState ∧
    (pBlock.update c0 1).currentState = PlayerState.BLOCK := by
  have hmem : pHurt.currentState ∈ attackOrHurt := by decide
  have hfin : pHurt.animations.isFinished = false := by decide
  exact ⟨hmem, hfin,
    ((noninterruptible_and_block_states pHurt c0 1).1 hmem).1 hfin,
    (noninterruptible_and_block_states pBlock c0 1).2 (by decide)⟩

/-- C6 — a left click while an attack is allowed (state IDLE, WALK or RUN)
enters exactly one of ATTACK_LIGHT_1 or ATTACK_LIGHT_2, and in any attack
state every mouse click is ignored (gated by `_can_attack`), so no new attack
starts before the state machine has left the attack state. -/
theorem light_attack_two_variants (p : Player) (c : Consts) (t : ℤ) (coin : Bool) :
    (p.canAttack = true ↔
      p.currentState ∈ [PlayerState.IDLE, PlayerState.WALK, PlayerState.RUN]) ∧
    (p.canAttack = true →
      (p.handleMouseClick c 1 t coin).currentState = PlayerState.ATTACK_LIGHT_1 ∨
      (p.handleMouseClick c 1 t coin).currentState = PlayerState.ATTACK_LIGHT_2) ∧
    (p.currentState ∈ attackStates → ∀ b t2 coin2, p.handleMouseClick c b t2 coin2 = p) := by
  refine ⟨?_, ?_, ?_⟩
  · cases h : p.currentState <;> simp [Player.canAttack, h]
  · intro hcan
    cases coin <;> simp [Player.handleMouseClick, hcan]
  · intro hmem b t2 coin2
    have hcan : p.canAttack = false := by
      simp only [attackStates, List.mem_cons, List.not_mem_nil, or_false] at hmem
      rcases hmem with h | h | h <;> simp [Player.canAttack, h]
    simp [Player.handleMouseClick, hcan]

/-- C6 witness: a fresh IDLE player's left click lands in one of the two light
attacks, and a player mid heavy attack ignores a further click entirely. -/
theorem light_attack_two_variants_witness :
    ((pIdle.handleMouseClick c0 1 100 true).currentState = PlayerState.ATTACK_LIGHT_1 ∨
      (pIdle.handleMouseClick c0 1 100 true).currentState = PlayerState.ATTACK_LIGHT_2) ∧
    pAttack.handleMouseClick c0 1 200 false = pAttack :=
  ⟨(light_attack_two_variants pIdle c0 100 true).2.1 (by decide),
   (light_attack_two_variants pAttack c0 200 false).2.2 (by decide) 1 200 false⟩

/-- C1 counterexample — the stored right-click timestamp starts at 0
(`player.py` line 64), so a single right click with no prior right click, at a
timestamp within the threshold of 0 (here 100ms ≤ 400ms), does fire a heavy
attack, contradicting the claim that a single right click never fires one. -/
theorem single_right_click_fires_heavy_attack :
    pIdle.lastRightClickTime = 0 ∧ pIdle.currentState = PlayerState.IDLE ∧
    (pIdle.handleMouseClick c0 3 100 false).currentState = PlayerState.ATTACK_HEAVY :=
  ⟨rfl, rfl, rfl⟩

/-- C1 (amended) — right-click double-click detection while attacks are
allowed: a click within the threshold of the stored timestamp fires exactly
one heavy attack and resets the timestamp to 0; a click beyond it fires no
attack and records its timestamp, and a further click beyond the threshold of
the first also fires nothing — so a single right click fires no heavy attack
provided its timestamp exceeds the threshold (the stored timestamp being
initialized to 0). -/
theorem heavy_attack_double_click (p : Player) (c : Consts) (t : ℤ) (coin : Bool)
    (hcan : p.canAttack = true) :
    (t - p.lastRightClickTime ≤ c.doubleClickThresholdMs →
      (p.handleMouseClick c 3 t coin).currentState = PlayerState.ATTACK_HEAVY ∧
      (p.handleMouseClick c 3 t coin).lastRightClickTime = 0) ∧
    (c.doubleClickThresholdMs < t - p.lastRightClickTime →
      (p.handleMouseClick c 3 t coin).currentState = p.currentState ∧
      (p.handleMouseClick c 3 t coin).lastRightClickTime = t ∧
      ∀ t2 coin2, c.doubleClickThresholdMs < t2 - t →
        ((p.handleMouseClick c 3 t coin).handleMouseClick c 3 t2 coin2).currentState
          = p.currentState) := by
  constructor
  · intro hle
    constructor <;> simp [Player.handleMouseClick, hcan, hle]
  · intro hgt
    have hle : ¬(t - p.lastRightClickTime ≤ c.doubleClickThresholdMs) := not_le.mpr hgt
    have heq : p.handleMouseClick c 3 t coin = { p with lastRightClickTime := t } := by
      simp [Player.handleMouseClick, hcan, hle]
    refine ⟨by rw [heq], by rw [heq], ?_⟩
    intro t2 coin2 hgt2
    rw [heq]
    have hcan2 : ({ p with lastRightClickTime := t } : Player).canAttack = true := hcan
    have hle2 : ¬(t2 - t ≤ c.doubleClickThresholdMs) := not_le.mpr hgt2
    simp [Player.handleMouseClick, hcan2, hle2]

/-- C1 witness: a single right click at 500ms (beyond the 400ms threshold of
the initial timestamp 0) fires nothing and records 500; a second click at
1000ms (beyond the threshold of 500) still fires nothing. -/
theorem heavy_attack_double_click_witness :
    pIdle.canAttack = true ∧
    (pIdle.handleMouseClick c0 3 500 true).currentState = pIdle.currentState ∧
    (pIdle.handleMouseClick c0 3 500 true).lastRightClickTime = 500 ∧
    ((pIdle.handleMouseClick c0 3 500 true).handleMouseClick c0 3 1000 false).currentState
      = pIdle.currentState := by
  have h := (heavy_attack_double_click pIdle c0 500 true rfl).2 (by decide)
  exact ⟨rfl, h.1, h.2.1, h.2.2 1000 false (by decide)⟩

/-- C8 — the jump request is a one-shot latch: a JUMP press is latched only
when grounded and not blocking (otherwise `handle_action` leaves the player
unchanged), and an update consuming the request sets the vertical velocity to
the unit-converted jump speed, clears the grounded flag and clears the request
at that instant. -/
theorem jump_one_shot (p : Player) (c : Consts) (dt : ℚ) :
    ((p.onGround = true ∧ p.isBlocking = false) →
      (p.handleAction PlayerAction.JUMP true).jumpRequested = true) ∧
    (¬(p.onGround = true ∧ p.isBlocking = false) →
      p.handleAction PlayerAction.JUMP true = p) ∧
    (p.jumpRequested = true → p.onGround = true → p.isBlocking = false →
      (p.update c dt).velY = c.jumpSpeed * 60 ∧
      (p.update c dt).onGround = false ∧
      (p.update c dt).jumpRequested = false) := by
  refine ⟨?_, ?_, ?_⟩
  · rintro ⟨hg, hb⟩
    simp [Player.handleAction, hg, hb]
  · intro h
    cases hg : p.onGround with
    | true =>
      cases hb : p.isBlocking with
      | false => exact absurd ⟨hg, hb⟩ h
      | true => simp [Player.handleAction, hb]
    | false => simp [Player.handleAction, hg]
  · intro hj hg hb
    have h1 : (p.invulnerabilityStep dt).jumpStep c =
        { p.invulnerabilityStep dt with
            velY := c.jumpSpeed * 60, onGround := false, jumpRequested := false } := by
      unfold Player.jumpStep
      simp [hj, hg, hb]
    refine ⟨?_, ?_, ?_⟩
    · show ((p.invulnerabilityStep dt).updateCharacter c dt).velY = _
      rw [updateCharacter_velY, h1, gravityStep_velY_airborne _ _ rfl]
    · show ((p.invulnerabilityStep dt).updateCharacter c dt).onGround = _
      rw [updateCharacter_onGround, h1]
    · show ((p.invulnerabilityStep dt).updateCharacter c dt).jumpRequested = _
      rw [updateCharacter_jumpRequested, h1]

/-- C8 witness: a grounded non-blocking player's JUMP press latches the
request, and the next update consumes it exactly once. -/
theorem jump_one_shot_witness :
    (pReady.handleAction PlayerAction.JUMP true).jumpRequested = true ∧
    ((pReady.handleAction PlayerAction.JUMP true).update c0 1).velY = c0.jumpSpeed * 60 ∧
    ((pReady.handleAction PlayerAction.JUMP true).update c0 1).onGround = false ∧
    ((pReady.handleAction PlayerAction.JUMP true).update c0 1).jumpRequested = false := by
  have h1 := (jump_one_shot pReady c0 1).1 ⟨rfl, rfl⟩
  have h2 := (jump_one_shot (pReady.handleAction PlayerAction.JUMP true) c0 1).2.2 h1 rfl rfl
  exact ⟨h1, h2.1, h2.2.1, h2.2.2⟩

/-- C3 — code behaviour at the failing input: `handle_action` with the
ATTACK_LIGHT or ATTACK_HEAVY action assigns the blocking flag
(`player.py` lines 131-134), so a pressed attack action turns blocking on for
a fresh (non-blocking) player, and a released one cancels a held block. -/
theorem attack_actions_set_blocking_flag :
    pIdle.isBlocking = false ∧
    (pIdle.handleAction PlayerAction.ATTACK_LIGHT true).isBlocking = true ∧
    (pIdle.handleAction PlayerAction.ATTACK_HEAVY true).isBlocking = true ∧
    pBlock.isBlocking = true ∧
    (pBlock.handleAction PlayerAction.ATTACK_LIGHT false).isBlocking = false :=
  ⟨rfl, rfl, rfl, rfl, rfl⟩

/-- C7 — chip damage while blocking: with blocking on (and the player alive
and not invulnerable, so the base routine applies damage), `take_damage`
forwards `max(1, floor(amount * BLOCK_DAMAGE_REDUCTION))` — for nonnegative
amounts Python's `int()` truncation coincides with floor — so the resulting
health drops by at least 1 (and the applied damage is always ≥ 1). -/
theorem blocking_chip_damage (p : Player) (c : Consts) (amount : ℤ)
    (hb : p.isBlocking = true) (hinv : p.invulnerable = false)
    (halive : p.isAlive = true) (h0 : 0 ≤ amount) (hr : 0 ≤ c.blockDamageReduction) :
    (p.takeDamage c amount).2.health
      = max 0 (p.health - max 1 ⌊(amount : ℚ) * c.blockDamageReduction⌋) ∧
    1 ≤ max 1 ⌊(amount : ℚ) * c.blockDamageReduction⌋ ∧
    (p.takeDamage c amount).2.health < p.health := by
  have hprod : (0 : ℚ) ≤ (amount : ℚ) * c.blockDamageReduction :=
    mul_nonneg (by exact_mod_cast h0) hr
  have htr : pyTrunc ((amount : ℚ) * c.blockDamageReduction)
      = ⌊(amount : ℚ) * c.blockDamageReduction⌋ := by
    unfold pyTrunc
    rw [if_neg (not_lt.mpr hprod)]
  have hpos : 0 < p.health := of_decide_eq_true halive
  have key : (p.takeDamage c amount).2.health
      = max 0 (p.health - max 1 ⌊(amount : ℚ) * c.blockDamageReduction⌋) := by
    unfold Player.takeDamage Player.characterTakeDamage
    simp only [hb, hinv, halive, htr, Bool.not_true, Bool.false_or, if_true, ite_true]
    split_ifs with h1 h2 <;> simp_all [Player.isAlive]
  refine ⟨key, le_max_left _ _, ?_⟩
  rw [key]
  have h1 : 1 ≤ max 1 ⌊(amount : ℚ) * c.blockDamageReduction⌋ := le_max_left _ _
  omega

/-- C7 witness: 1 damage applied to a concrete blocking player (reduction 1/2)
still removes at least one health point. -/
theorem blocking_chip_damage_witness :
    pBlock.isBlocking = true ∧
    (pBlock.takeDamage c0 1).2.health
      = max 0 (pBlock.health - max 1 ⌊((1 : ℤ) : ℚ) * c0.blockDamageReduction⌋) ∧
    (pBlock.takeDamage c0 1).2.health < pBlock.health := by
  have h := blocking_chip_damage pBlock c0 1 rfl rfl rfl (by decide) (by norm_num [c0])
  exact ⟨rfl, h.1, h.2.2⟩

/-- When the held saved data is already the default and the save file does not
yield a parsable `(x, y, health)` triple, `_load_saved_game` leaves the scene
manager state unchanged (in particular the saved data stays `None`). -/
lemma loadSavedGame_eq_of_not_parses (st : SMState) (file : Option String)
    (hsd : st.savedData = none) (hp : fileParses file = false) :
    st.loadSavedGame file = st := by
  obtain ⟨cache, lvl, sd⟩ := st
  simp only at hsd
  subst hsd
  cases file with
  | none => rfl
  | some content =>
    simp only [fileParses] at hp
    simp only [SMState.loadSavedGame, SMState.loadSavedGameBody]
    rcases hps : pySplit content with _ | ⟨tx, _ | ⟨ty, _ | ⟨th, rest⟩⟩⟩
    · rfl
    · rfl
    · rfl
    · rw [hps] at hp
      rcases hx : parseFloatTok tx with _ | x <;>
        rcases hy : parseFloatTok ty with _ | y <;>
          rcases hz : parseIntTok th with _ | z <;>
            simp_all

/-- C10 — loading the saved game never surfaces an error: every exception the
body can raise is one the `except (IOError, ValueError)` clause catches, and
for a missing file or one without a parsable `x y health` prefix (including
fewer than three fields) the held saved data remains the default `None`. -/
theorem load_saved_game_no_save (st : SMState) (file : Option String)
    (hsd : st.savedData = none) (hp : fileParses file = false) :
    (st.loadSavedGame file).savedData = none ∧
    ∀ e, st.loadSavedGameBody file = Except.error e
      → e = PyExn.ioError ∨ e = PyExn.valueError := by
  constructor
  · rw [loadSavedGame_eq_of_not_parses st file hsd hp]
    exact hsd
  · intro e _
    cases e
    · exact Or.inl rfl
    · exact Or.inr rfl

/-- C10 witness: a save file whose second field is not a float loads as "no
save" on the initial manager state. -/
theorem load_saved_game_no_save_witness :
    smInit.savedData = none ∧ fileParses (some "12 abc 7") = false ∧
    (smInit.loadSavedGame (some "12 abc 7")).savedData = none := by
  have h := load_saved_game_no_save smInit (some "12 abc 7") rfl (by decide)
  exact ⟨rfl, by decide, h.1⟩

/-- C9 — an unknown scene id (none of the special ids `new_game`, `continue`,
`game` and no registered class `menu`, `settings`, `game`, `dialog`) makes
`_get_scene` yield nothing and the run loop raise `SceneError` at that
iteration — no silent fallback. -/
theorem unknown_scene_id_fatal (file : Option String) (sceneRun : Scene → Option String)
    (fuel : ℕ) (st : SMState) (sid : String)
    (h1 : sid ≠ "new_game") (h2 : sid ≠ "continue") (h3 : sid ≠ "game")
    (h4 : sid ≠ "menu") (h5 : sid ≠ "settings") (h6 : sid ≠ "dialog")
    (h7 : sid ≠ "") (h8 : sid ≠ "exit") :
    st.getScene file sid = none ∧
    SMState.runLoop file sceneRun (fuel + 1) st (some sid)
      = Except.error ("Unknown scene: " ++ sid) := by
  have hg : st.getScene file sid = none := by
    unfold SMState.getScene SMState.createScene
    simp [h1, h2, h3, h4, h5, h6]
  refine ⟨hg, ?_⟩
  simp [SMState.runLoop, h7, h8, hg]

/-- C9 witness: requesting the scene id "bogus" aborts the loop with the
fatal error. -/
theorem unknown_scene_id_fatal_witness :
    smInit.getScene none "bogus" = none ∧
    SMState.runLoop none (fun _ => none) 1 smInit (some "bogus")
      = Except.error ("Unknown scene: " ++ "bogus") :=
  unknown_scene_id_fatal none (fun _ => none) 0 smInit "bogus"
    (by decide) (by decide) (by decide) (by decide)
    (by decide) (by decide) (by decide) (by decide)

/-- C2 counterexample — `new_game` clears the held state but does not delete
the save file, so a `continue` resolved afterwards (no save written in
between) re-reads the file and constructs the game scene with the stale
pre-`new_game` saved tuple `(1.0, 2.0, 50)` rather than the default `None`. -/
theorem continue_after_new_game_reloads_stale_save :
    stStale.savedData = some ⟨1, 2, 50⟩ ∧
    stStale.getScene file0 "new_game" =
      some (Scene.dialog "introduction" "game", smInit) ∧
    smInit.savedData = none ∧
    continueScene.map sceneLevelId = some (some "tutorial") ∧
    continueScene.map (fun sc => (sceneSavedData sc).isSome) = some true ∧
    continueScene.map (fun sc => (sceneSavedData sc).map (fun d => d.health))
      = some (some 50) := by
  refine ⟨rfl, by decide, rfl, by decide, by decide, by decide⟩

/-- C2 (amended) — resolving `new_game` clears the held saved data and resets
the level to tutorial, and a following `continue` constructs the game scene
with default (`None`) saved data provided the on-disk save file is missing or
unparsable; with a valid save file persisting on disk, `continue` reloads it
instead (`new_game` never deletes the file). -/
theorem new_game_then_continue (st : SMState) (file : Option String)
    (hp : fileParses file = false) :
    st.getScene file "new_game" =
      some (Scene.dialog "introduction" "game",
        { st with savedData := none, currentLevel := "tutorial" }) ∧
    ({ st with savedData := none, currentLevel := "tutorial" } : SMState).getScene
        file "continue" =
      some (Scene.game "tutorial" none,
        { st with savedData := none, currentLevel := "tutorial" }) := by
  constructor
  · unfold SMState.getScene SMState.createScene
    simp
  · have hload : ({ st with savedData := none, currentLevel := "tutorial" } :
        SMState).loadSavedGame file
        = { st with savedData := none, currentLevel := "tutorial" } :=
      loadSavedGame_eq_of_not_parses _ file rfl hp
    unfold SMState.getScene SMState.createScene
    simp [hload]

/-- C2 (amended) witness: with no save file on disk, `new_game` followed by
`continue` on a state holding stale data yields the game scene with default
saved data. -/
theorem new_game_then_continue_witness :
    stStale.getScene none "new_game" =
      some (Scene.dialog "introduction" "game",
        { stStale with savedData := none, currentLevel := "tutorial" }) ∧
    ({ stStale with savedData := none, currentLevel := "tutorial" } : SMState).getScene
        none "continue" =
      some (Scene.game "tutorial" none,
        { stStale with savedData := none, currentLevel := "tutorial" }) :=
  new_game_then_continue stStale none rfl

end FallenKnight
